import Mathlib

/-!
Verification development for the event/attendance backend.

The definitions below are a shallow embedding of the TypeScript route
handlers in `src/routes/event.routes.ts`, `src/routes/attendance.routes.ts`
and `src/routes/onduty.routes.ts`.  Instants are modelled as milliseconds
since the Unix epoch (`Int`); JavaScript `Date` construction from the
ISO-style strings built by the handlers is modelled by digit-wise parsing
plus the V8 component-range validity check (an out-of-range component
yields an invalid date, modelled as `none`).  Database tables are modelled
as lists of rows, and each route handler as a pure function from the
incoming request data and the database state to a response and a new
state.  `AppError msg code` mirrors `new AppError(message, statusCode)`.
-/

/-- Milliseconds per day, the divisor used to derive the UTC calendar day
of an instant. -/
def msPerDay : Int := 86400000

/-- Gregorian leap-year test, as used by JavaScript date arithmetic. -/
def isLeapYear (y : Int) : Bool :=
  (y % 4 == 0 && y % 100 != 0) || y % 400 == 0

/-- Number of days in a month of a given year. -/
def daysInMonth (y m : Int) : Int :=
  if m == 2 then (if isLeapYear y then 29 else 28)
  else if m == 4 || m == 6 || m == 9 || m == 11 then 30
  else 31

/-- Days since 1970-01-01 of a civil date (proleptic Gregorian).  This is
the standard days-from-civil computation; it is additive in `d`, matching
JavaScript `MakeDay`, so an out-of-range day rolls over arithmetically. -/
def daysFromCivil (y m d : Int) : Int :=
  let y2 : Int := if m ≤ 2 then y - 1 else y
  let era : Int := Int.fdiv y2 400
  let yoe : Int := y2 - era * 400
  let mp : Int := if m ≤ 2 then m + 9 else m - 3
  let doy : Int := Int.fdiv (153 * mp + 2) 5 + d - 1
  let doe : Int := yoe * 365 + Int.fdiv yoe 4 - Int.fdiv yoe 100 + doy
  era * 146097 + doe - 719468

/-- Civil date of a day count since 1970-01-01 (inverse of
`daysFromCivil` on valid dates). -/
def civilFromDays (z0 : Int) : Int × Int × Int :=
  let z : Int := z0 + 719468
  let era : Int := Int.fdiv z 146097
  let doe : Int := z - era * 146097
  let yoe : Int :=
    Int.fdiv (doe - Int.fdiv doe 1460 + Int.fdiv doe 36524 - Int.fdiv doe 146096) 365
  let y : Int := yoe + era * 400
  let doy : Int := doe - (365 * yoe + Int.fdiv yoe 4 - Int.fdiv yoe 100)
  let mp : Int := Int.fdiv (5 * doy + 2) 153
  let d : Int := doy - Int.fdiv (153 * mp + 2) 5 + 1
  let m : Int := if mp < 10 then mp + 3 else mp - 9
  (if m ≤ 2 then y + 1 else y, m, d)

/-- The three digit groups captured from a `YYYY-MM-DD` string; the
components are not yet range-checked (that happens at `Date`
construction, see `calDateValid`). -/
structure CalDate where
  year : Nat
  month : Nat
  day : Nat
deriving DecidableEq

/-- The digit groups captured from an `HH:MM[:SS]` string, unvalidated. -/
structure HMS where
  hh : Nat
  mm : Nat
  ss : Nat
deriving DecidableEq

/-- V8 accepts an ISO date exactly when month and day are in range for
the calendar. -/
def calDateValid (c : CalDate) : Bool :=
  1 ≤ c.month && c.month ≤ 12 && 1 ≤ c.day &&
    (Int.ofNat c.day) ≤ daysInMonth (Int.ofNat c.year) (Int.ofNat c.month)

/-- Day count since the epoch of a captured date. -/
def civilDays (c : CalDate) : Int :=
  daysFromCivil (Int.ofNat c.year) (Int.ofNat c.month) (Int.ofNat c.day)

/-- V8 accepts an ISO time-of-day iff components are in range, where
`24:00:00` is also allowed (end of day); the result is the millisecond
offset into the day.  An invalid time makes the whole `Date` invalid,
modelled as `none`. -/
def timeOfDayMs (t : HMS) : Option Int :=
  if (t.hh ≤ 23 && t.mm ≤ 59 && t.ss ≤ 59) || (t.hh == 24 && t.mm == 0 && t.ss == 0) then
    some ((Int.ofNat t.hh) * 3600000 + (Int.ofNat t.mm) * 60000 + (Int.ofNat t.ss) * 1000)
  else none

/-- Digit test, JavaScript regex `\d`. -/
def isDig (c : Char) : Bool := '0' ≤ c && c ≤ '9'

/-- Numeric value of a digit character. -/
def digVal (c : Char) : Nat := c.toNat - 48

/-- Consume exactly two digits. -/
def read2 : List Char → Option (Nat × List Char)
  | a :: b :: rest =>
      if isDig a && isDig b then some (digVal a * 10 + digVal b, rest) else none
  | _ => none

/-- Consume exactly four digits. -/
def read4 : List Char → Option (Nat × List Char)
  | a :: b :: c :: d :: rest =>
      if isDig a && isDig b && isDig c && isDig d then
        some (((digVal a * 10 + digVal b) * 10 + digVal c) * 10 + digVal d, rest)
      else none
  | _ => none

/-- Consume a literal hyphen. -/
def readDash : List Char → Option (List Char)
  | '-' :: rest => some rest
  | _ => none

/-- Consume a literal colon. -/
def readColon : List Char → Option (List Char)
  | ':' :: rest => some rest
  | _ => none

/-- Match the regex `^(\d{4})-(\d{2})-(\d{2})` at the head of the
character list, returning the captured date and the remainder. -/
def readDateLead (l : List Char) : Option (CalDate × List Char) :=
  match read4 l with
  | none => none
  | some (y, r1) =>
    match readDash r1 with
    | none => none
    | some r2 =>
      match read2 r2 with
      | none => none
      | some (m, r3) =>
        match readDash r3 with
        | none => none
        | some r4 =>
          match read2 r4 with
          | none => none
          | some (d, r5) => some (⟨y, m, d⟩, r5)

/-- Match the regex `^(\d{2}):(\d{2})(?::(\d{2}))?` at the head of the
character list; missing seconds default to `00` as in the source. -/
def readTimeLead (l : List Char) : Option (HMS × List Char) :=
  match read2 l with
  | none => none
  | some (h, r1) =>
    match readColon r1 with
    | none => none
    | some r2 =>
      match read2 r2 with
      | none => none
      | some (mi, r3) =>
        match readColon r3 with
        | some r4 =>
          match read2 r4 with
          | some (s, r5) => some (⟨h, mi, s⟩, r5)
          | none => some (⟨h, mi, 0⟩, r3)
        | none => some (⟨h, mi, 0⟩, r3)

/-- An `events` table row as the handlers read it.  With the pg type
parser configured (per the source comment), `event_date` and `event_time`
arrive as strings or null, modelled as `Option String`; a JavaScript
falsy empty string is treated like null at each use site, as in the
source. -/
structure EventRow where
  id : String
  status : String
  event_date : Option String
  event_time : Option String
  venue : Option String := none
  max_participants : Option Nat := none
deriving DecidableEq

/-- Whitespace for the purposes of `String.prototype.trim`. -/
def isWs (c : Char) : Bool :=
  c == ' ' || c == '\t' || c == '\n' || c == '\r' || c == '\x0b' || c == '\x0c'

/-- Drop leading whitespace characters. -/
def dropLeadWs : List Char → List Char
  | [] => []
  | c :: r => if isWs c then dropLeadWs r else c :: r

/-- JavaScript `trim()`: drop whitespace from both ends. -/
def trimChars (l : List Char) : List Char :=
  (dropLeadWs (dropLeadWs l).reverse).reverse

/-- ASCII lower-casing; the status vocabulary of this backend is ASCII,
so this models `toLowerCase()` faithfully on the values that occur. -/
def asciiLower (c : Char) : Char :=
  if 'A' ≤ c && c ≤ 'Z' then Char.ofNat (c.toNat + 32) else c

/-- Status normalisation used throughout the handlers:
`status.trim().toLowerCase()`. -/
def statusNorm (s : String) : String := ⟨(trimChars s.data).map asciiLower⟩

/-- Embeds `normalizeEventDate` from `event.routes.ts`: trim, then accept
the string if its first ten characters match `\d{4}-\d{2}-\d{2}` (the
exact-match branch and the leading-match branch of the source capture the
same ten characters). -/
def normalizeEventDate (rawDate : Option String) : Option CalDate :=
  match rawDate with
  | none => none
  | some s =>
    if s = "" then none
    else
      match readDateLead (trimChars s.data) with
      | some (cd, _) => some cd
      | none => none

/-- Embeds `normalizeEventTime` from `event.routes.ts`: trim, then match
`^(\d{2}):(\d{2})(?::(\d{2}))?` (not anchored at the end). -/
def normalizeEventTime (rawTime : Option String) : Option HMS :=
  match rawTime with
  | none => none
  | some s =>
    if s = "" then none
    else
      match readTimeLead (trimChars s.data) with
      | some (t, _) => some t
      | none => none

/-- Embeds `isEventCompleted` from `event.routes.ts` (the registration
gate).  `now` is the instant taken by `new Date()`;
`Int.ediv now msPerDay * msPerDay` is `todayStartUTC` (floor to the UTC
day, `ediv` is floor division for the positive divisor);
`civilDays cd * msPerDay` is `eventDateStart.getTime()`; a captured date
with out-of-range components makes `new Date` invalid (the `NaN` branch),
returning `false`. -/
def isEventCompleted (ev : EventRow) (now : Int) : Bool :=
  if statusNorm ev.status = "completed" ∨ statusNorm ev.status = "archived" then true
  else
    match normalizeEventDate ev.event_date with
    | none => false
    | some cd =>
      if calDateValid cd = false then false
      else if Int.ediv now msPerDay * msPerDay < civilDays cd * msPerDay then false
      else if civilDays cd * msPerDay < Int.ediv now msPerDay * msPerDay then true
      else
        match normalizeEventTime ev.event_time with
        | none => false
        | some t =>
          match timeOfDayMs t with
          | none => false
          | some tms => decide (civilDays cd * msPerDay + tms ≤ now)

/-- An error raised as `new AppError(message, statusCode)`; the error
handler middleware surfaces `statusCode` as the HTTP status. -/
structure AppError where
  message : String
  statusCode : Nat
deriving DecidableEq

/-- Embeds `parseEventDateTime` from `attendance.routes.ts`.  The date is
matched by `^(\d{4}-\d{2}-\d{2})` without trimming; a string that does
not match falls through to `new Date` on the raw text, which is modelled
as an invalid date (`none`).  The time defaults to midnight unless the
trimmed time string fully matches `^\d{2}:\d{2}(:\d{2})?$`.  The combined
string has no `Z` suffix, so it is read as local time: `tz` is the
server's UTC offset in milliseconds and the produced instant is the wall
clock value minus `tz`. -/
def parseEventDateTime (ev : EventRow) (tz : Int) : Option Int :=
  match ev.event_date with
  | none => none
  | some s =>
    if s = "" then none
    else
      match readDateLead s.data with
      | none => none
      | some (cd, _) =>
        let t : HMS :=
          match ev.event_time with
          | none => ⟨0, 0, 0⟩
          | some ts =>
            if ts = "" then ⟨0, 0, 0⟩
            else
              match readTimeLead (trimChars ts.data) with
              | some (t0, []) => t0
              | _ => ⟨0, 0, 0⟩
        if calDateValid cd = false then none
        else
          match timeOfDayMs t with
          | none => none
          | some tms => some (civilDays cd * msPerDay + tms - tz)

/-- Embeds the check-in handler's own `isEventCompleted` from
`attendance.routes.ts`: status Completed/Archived, or the event's start
instant lies strictly in the past. -/
def isEventCompletedCheckin (ev : EventRow) (now tz : Int) : Bool :=
  if statusNorm ev.status = "completed" ∨ statusNorm ev.status = "archived" then true
  else
    match parseEventDateTime ev tz with
    | none => false
    | some t => decide (t < now)

/-- The grace period constant `GRACE_PERIOD_MINUTES = 15` from
`attendance.routes.ts` (the event row's own grace field is not read). -/
def gracePeriodMinutes : Int := 15

/-- Embeds the decision portion of `POST /checkin` in
`attendance.routes.ts`, from the point where the event row has been
loaded: the cancelled-status gate, the not-started gate, the on-time/late
classification against the grace window, and the completed-event gate.
On success it returns the pair (participant status, attendance-log
status) that the subsequent upserts write. -/
def checkinDecision (ev : EventRow) (now tz : Int) : Except AppError (String × String) :=
  if statusNorm ev.status = "cancelled" then
    .error ⟨"Event is not open for attendance", 400⟩
  else
    match parseEventDateTime ev tz with
    | some edt =>
      if now < edt then .error ⟨"Event has not started yet", 400⟩
      else if isEventCompletedCheckin ev now tz then
        .error ⟨"Event is already completed", 400⟩
      else if edt + gracePeriodMinutes * 60000 < now then .ok ("late", "late")
      else .ok ("attended", "present")
    | none =>
      if isEventCompletedCheckin ev now tz then
        .error ⟨"Event is already completed", 400⟩
      else .ok ("attended", "present")

/-- An `event_participants` row. -/
structure Participant where
  event_id : String
  student_id : String
  status : String
deriving DecidableEq

/-- The row filter for one (event, student) pair. -/
def pairMatch (eid sid : String) (p : Participant) : Bool :=
  p.event_id == eid && p.student_id == sid

/-- The capacity count of `POST /:id/register`: participants of the event
with status in {registered, attended, late}. -/
def countQual (parts : List Participant) (eid : String) : Nat :=
  (parts.filter fun p =>
    p.event_id == eid &&
      (p.status == "registered" || p.status == "attended" || p.status == "late")).length

/-- The capacity gate of `POST /:id/register`: `if (event.max_participants)`
is JavaScript-truthy, so a null or zero cap disables the check; otherwise
registration is blocked when the count has reached the cap. -/
def capBlocked (parts : List Participant) (ev : EventRow) : Bool :=
  match ev.max_participants with
  | some n => n != 0 && decide (n ≤ countQual parts ev.id)
  | none => false

/-- The capacity gate does not fire: every configured non-zero cap
strictly exceeds the current qualifying count. -/
def capacityOpen (parts : List Participant) (ev : EventRow) : Prop :=
  ∀ n, ev.max_participants = some n → n ≠ 0 → countQual parts ev.id < n

/-- Outcome of `POST /:id/register`: a thrown `AppError`, a
`success: true` JSON body (message and `registrationStatus`), or the
`success: false` JSON body of the absent-participant branch. -/
inductive RegResult where
  | err (e : AppError)
  | ok (message : String) (registrationStatus : Option String)
  | fail (message : String)
deriving DecidableEq

/-- Embeds `POST /:id/register` from `event.routes.ts`, from the point
where the event row has been loaded and the acting student id has been
resolved: cancelled gate, completion gate, existing-participant branches,
capacity gate, and the insert of a `registered` row.  The state is the
`event_participants` table. -/
def register (parts : List Participant) (ev : EventRow) (sid : String) (now : Int) :
    RegResult × List Participant :=
  if statusNorm ev.status = "cancelled" then (.err ⟨"Event is cancelled", 400⟩, parts)
  else if isEventCompleted ev now then
    (.err ⟨"Event registration has closed", 400⟩, parts)
  else
    match parts.find? (pairMatch ev.id sid) with
    | some p =>
      if p.status = "attended" ∨ p.status = "late" then
        (.ok "You have already checked in for this event" (some p.status), parts)
      else if p.status = "absent" then
        (.fail "Event has concluded. Registration is closed.", parts)
      else
        (.ok "You are already registered for this event" (some p.status), parts)
    | none =>
      if capBlocked parts ev then
        (.err ⟨"Event has reached maximum capacity", 400⟩, parts)
      else
        (.ok "Registered successfully" (some "registered"),
          parts ++ [⟨ev.id, sid, "registered"⟩])

deriving instance DecidableEq for Except

/-- An `attendance_logs` row, restricted to the fields the absence sweep
reads and writes. -/
structure LogRow where
  student_id : String
  event_id : String
  status : String
  location : Option String := none
deriving DecidableEq

/-- The slice of database state touched by the absence sweep. -/
structure EventDB where
  participants : List Participant
  logs : List LogRow
deriving DecidableEq

/-- The `WHERE event_id = $1 AND status = 'registered'` filter of the
sweep. -/
def pendingPred (eid : String) (p : Participant) : Bool :=
  p.event_id == eid && p.status == "registered"

/-- The sweep's `UPDATE ... SET status = 'absent' WHERE ... status =
'registered'` applied to one row. -/
def absentify (eid : String) (p : Participant) : Participant :=
  if pendingPred eid p then { p with status := "absent" } else p

/-- The `NOT EXISTS` subquery of the sweep's insert: does any
attendance-log row exist for the (student, event) pair. -/
def logPairAny (logs : List LogRow) (sid eid : String) : Bool :=
  logs.any fun l => l.student_id == sid && l.event_id == eid

/-- Number of attendance-log rows for one (student, event) pair. -/
def logPairCount (logs : List LogRow) (sid eid : String) : Nat :=
  (logs.filter fun l => l.student_id == sid && l.event_id == eid).length

/-- Does the event have a still-`registered` participant row for this
student (the condition under which the sweep creates an absent log for
the student). -/
def pendingStudent (db : EventDB) (eid sid : String) : Bool :=
  db.participants.any fun p => pendingPred eid p && p.student_id == sid

/-- One iteration of the sweep's insert loop: insert an `absent` log for
the participant unless a log row already exists for the pair (each
iteration sees the rows inserted by earlier iterations). -/
def insertAbsentLog (eid : String) (venue : Option String)
    (logs : List LogRow) (p : Participant) : List LogRow :=
  if logPairAny logs p.student_id eid then logs
  else logs ++ [⟨p.student_id, eid, "absent", venue⟩]

/-- Embeds `markPendingParticipantsAsAbsent` from `event.routes.ts`:
select the still-`registered` participants of the event; if none, return;
otherwise insert an `absent` attendance-log row for each selected
participant that has no log row yet, then set all the event's
`registered` participants to `absent`. -/
def markPendingParticipantsAsAbsent (db : EventDB) (ev : EventRow) : EventDB :=
  let pending := db.participants.filter (pendingPred ev.id)
  if pending.isEmpty then db
  else
    { participants := db.participants.map (absentify ev.id),
      logs := pending.foldl (insertAbsentLog ev.id ev.venue) db.logs }

/-- Embeds the tail of `PUT /:id` from `event.routes.ts`: after the
`COALESCE` update writes the new status, the sweep runs exactly when the
normalized updated status is completed or archived. -/
def updateEventStatus (db : EventDB) (ev : EventRow) (newStatus : String) :
    EventRow × EventDB :=
  if statusNorm newStatus = "completed" ∨ statusNorm newStatus = "archived" then
    ({ ev with status := newStatus },
      markPendingParticipantsAsAbsent db { ev with status := newStatus })
  else ({ ev with status := newStatus }, db)

/-- The claim-side characterization of the registration gate (claim C2),
written from the spec text: completed iff the status is
Completed/Archived (after the source's trim/lower-case normalisation), or
the event date parses to a valid calendar date which is strictly before
today's UTC date, or equals today and a time component is present whose
combined date+time instant is a valid instant that is at or before
`now`. -/
def registrationGateClaim (ev : EventRow) (now : Int) : Prop :=
  statusNorm ev.status = "completed" ∨ statusNorm ev.status = "archived" ∨
    ∃ cd, normalizeEventDate ev.event_date = some cd ∧ calDateValid cd = true ∧
      (civilDays cd < Int.ediv now msPerDay ∨
        (civilDays cd = Int.ediv now msPerDay ∧
          ∃ t tms, normalizeEventTime ev.event_time = some t ∧
            timeOfDayMs t = some tms ∧ civilDays cd * msPerDay + tms ≤ now))

/-- A `users` table row (identity store), as read by the on-duty
handlers. -/
structure UserRow where
  id : String
  email : String
deriving DecidableEq

/-- A `students` table row, restricted to the columns the on-duty
handlers read or write. -/
structure StudentRow where
  id : String
  user_id : String
  status : String
  name : String := ""
  email : String := ""
  phone : String := ""
  college : String := ""
  department : String := ""
  year : String := ""
  registration_number : String := ""
deriving DecidableEq

/-- An `on_duty_requests` row. -/
structure ODRequest where
  id : String
  student_id : String
  college_name : String
  start_date : String
  start_time : String
  end_date : String
  end_time : String
  reason : String
  document_url : Option String := none
  status : String
  approved_by : Option String := none
  rejection_reason : Option String := none
deriving DecidableEq

/-- An `on_duty_attendance` row; `check_in_date` models
`DATE(check_in_time)` for the inserted `CURRENT_TIMESTAMP`. -/
structure ODAttendance where
  request_id : String
  student_id : String
  check_in_date : String
  latitude : String
  longitude : String
  address : Option String := none
  selfie_photo_url : Option String := none
  qr_data : Option String := none
deriving DecidableEq

/-- The slice of database state touched by the on-duty handlers. -/
structure ODState where
  users : List UserRow
  students : List StudentRow
  requests : List ODRequest
  attendance : List ODAttendance
deriving DecidableEq

/-- Lexicographic comparison of character lists by code point. -/
def charsLt : List Char → List Char → Bool
  | [], [] => false
  | [], _ :: _ => true
  | _ :: _, [] => false
  | a :: as, b :: bs =>
    if a.toNat < b.toNat then true
    else if b.toNat < a.toNat then false
    else charsLt as bs

/-- JavaScript `<` between strings: lexicographic by code unit, which on
the ASCII `YYYY-MM-DD` strings compared here coincides with code-point
order (and with calendar order). -/
def strLt (a b : String) : Bool := charsLt a.data b.data

/-- JavaScript truthiness of an optional string: present and non-empty. -/
def truthy (o : Option String) : Bool :=
  match o with
  | some s => !(s == "")
  | none => false

/-- `x || null` on an optional string: an absent or empty value becomes
null. -/
def orNull (o : Option String) : Option String :=
  match o with
  | some s => if s = "" then none else some s
  | none => none

/-- JavaScript `<` between a possibly-invalid `Date` and a valid one:
any comparison against `NaN` is false. -/
def jsLtOI (a : Option Int) (b : Int) : Bool :=
  match a with
  | some x => decide (x < b)
  | none => false

/-- JavaScript `>` between a possibly-invalid `Date` and a valid one. -/
def jsGtOI (a : Option Int) (b : Int) : Bool :=
  match a with
  | some x => decide (b < x)
  | none => false

/-- JavaScript `<=` between two possibly-invalid `Date`s. -/
def jsLeOO (a b : Option Int) : Bool :=
  match a, b with
  | some x, some y => decide (x ≤ y)
  | _, _ => false

/-- Parse `new Date(dateStr + "T" + timeStr)` for the user-supplied
on-duty form fields: the concatenation is a valid ISO local date-time
exactly when the date part fully matches `\d{4}-\d{2}-\d{2}`, the time
part fully matches `\d{2}:\d{2}(:\d{2})?`, and components are in V8
range; `tz` is the server's UTC offset in milliseconds. -/
def parseLocalDT (dateStr timeStr : String) (tz : Int) : Option Int :=
  match readDateLead dateStr.data with
  | some (cd, []) =>
    match readTimeLead timeStr.data with
    | some (t, []) =>
      if calDateValid cd = false then none
      else
        match timeOfDayMs t with
        | none => none
        | some tms => some (civilDays cd * msPerDay + tms - tz)
    | _ => none
  | _ => none

/-- `oneYearFromNow`: `new Date()` with `setFullYear(getFullYear() + 1)`,
evaluated on the server's local calendar (`tz` offset); the same civil
month/day/time-of-day in the next year, with JavaScript's additive
day-overflow normalisation. -/
def oneYearFromNowMs (now tz : Int) : Int :=
  let loc : Int := now + tz
  let ld : Int := Int.fdiv loc msPerDay
  let tod : Int := loc - ld * msPerDay
  match civilFromDays ld with
  | (y, m, d) => daysFromCivil (y + 1) m d * msPerDay + tod - tz

/-- `email.split("@")[0]`, the auto-created student's name. -/
def emailLocal (e : String) : String :=
  ⟨e.data.takeWhile fun c => !(c == '@')⟩

/-- The `on_duty_attendance` row inserted by `POST /attendance` when no
optional fields are supplied. -/
def odRow (reqId uid d lat lng : String) : ODAttendance :=
  { request_id := reqId, student_id := uid, check_in_date := d,
    latitude := lat, longitude := lng }

/-- The student row `POST /request` auto-creates for a user without a
profile: status `approved`, name from the email local part, fixed
placeholder fields, a random registration number. -/
def autoStudent (uid email nsid nreg : String) : StudentRow :=
  { id := nsid, user_id := uid, status := "approved", name := emailLocal email,
    email := email, phone := "", college := "Default", department := "CS",
    year := "1st", registration_number := nreg }

/-- The `pending` request row inserted by `POST /request`. -/
def odRequestRow (nrid sidv cn sd stt ed et rsn : String)
    (du : Option String) : ODRequest :=
  { id := nrid, student_id := sidv, college_name := cn, start_date := sd,
    start_time := stt, end_date := ed, end_time := et, reason := rsn,
    document_url := du, status := "pending" }

/-- The validation and insert part of `POST /request` from
`onduty.routes.ts` once a student row is in hand: the approved-status
gate, the three date checks (JavaScript comparisons, false on invalid
dates), and the insert of a `pending` request carrying the students-table
id. -/
def createODRequestWithStudent (st : ODState) (student : StudentRow)
    (collegeName startDate startTime endDate endTime reason : String)
    (documentUrl : Option String) (now tz : Int) (newRequestId : String) :
    Except AppError ODRequest × ODState :=
  if !(student.status == "approved") then
    (.error ⟨"Your student profile is " ++ student.status ++
      ". Only approved students can submit on-duty requests.", 403⟩, st)
  else
    let start := parseLocalDT startDate startTime tz
    let stop := parseLocalDT endDate endTime tz
    if jsLtOI start now then
      (.error ⟨"Start date/time cannot be in the past", 400⟩, st)
    else if jsLeOO stop start then
      (.error ⟨"End date/time must be after start date/time", 400⟩, st)
    else if jsGtOI start (oneYearFromNowMs now tz) then
      (.error ⟨"On-duty requests cannot be more than one year in advance", 400⟩, st)
    else
      let row : ODRequest :=
        odRequestRow newRequestId student.id collegeName startDate startTime
          endDate endTime reason documentUrl
      (.ok row, { st with requests := st.requests ++ [row] })

/-- Embeds `POST /request` from `onduty.routes.ts`.  `userId` is the
authenticated user id (`req.user.id`).  If no students row matches
`user_id = userId`, the handler auto-creates one with status `approved`
(name from the email local part, a random registration number modelled by
`newRegNum`, generated id `newStudentId`) and re-fetches it; only then is
the approved-status gate applied. -/
def createODRequest (st : ODState) (userId : String)
    (collegeName startDate startTime endDate endTime reason : String)
    (documentUrl : Option String) (now tz : Int)
    (newStudentId newRegNum newRequestId : String) :
    Except AppError ODRequest × ODState :=
  if collegeName = "" ∨ startDate = "" ∨ startTime = "" ∨ endDate = "" ∨
      endTime = "" ∨ reason = "" then
    (.error ⟨"All fields are required", 400⟩, st)
  else
    match st.students.find? (fun s => s.user_id == userId) with
    | some student =>
      createODRequestWithStudent st student collegeName startDate startTime
        endDate endTime reason documentUrl now tz newRequestId
    | none =>
      match st.users.find? (fun u => u.id == userId) with
      | none => (.error ⟨"User not found", 404⟩, st)
      | some u =>
        let newS : StudentRow := autoStudent userId u.email newStudentId newRegNum
        let st1 : ODState := { st with students := st.students ++ [newS] }
        match st1.students.find? (fun s => s.user_id == userId) with
        | some student =>
          createODRequestWithStudent st1 student collegeName startDate startTime
            endDate endTime reason documentUrl now tz newRequestId
        | none =>
          -- unreachable: the freshly inserted row matches the re-fetch
          (.error ⟨"Internal Server Error", 500⟩, st1)

/-- Embeds `PUT /admin/requests/:id` from `onduty.routes.ts`: validate
the requested status, require a reason when rejecting, check the request
exists, then update status, acting admin and rejection reason
unconditionally (no check of the current status). -/
def adminUpdateODRequest (st : ODState) (reqId : String) (newStatus : String)
    (rejectionReason : Option String) (adminId : String) :
    Except AppError Unit × ODState :=
  if !(newStatus == "approved" || newStatus == "rejected") then
    (.error ⟨"Status must be either \"approved\" or \"rejected\"", 400⟩, st)
  else if newStatus == "rejected" && !(truthy rejectionReason) then
    (.error ⟨"Rejection reason is required", 400⟩, st)
  else
    match st.requests.find? (fun r => r.id == reqId) with
    | none => (.error ⟨"On-duty request not found", 404⟩, st)
    | some _ =>
      (.ok (),
        { st with
          requests := st.requests.map fun r =>
            if r.id == reqId then
              { r with
                status := newStatus
                approved_by := some adminId
                rejection_reason := orNull rejectionReason }
            else r })

/-- Embeds `POST /attendance` from `onduty.routes.ts`.  `userId` is the
authenticated user id, which the lookup compares against the request's
`student_id` column; `today` models
`new Date().toISOString().split("T")[0]`, and the window check is the
source's string comparison of ISO dates. -/
def markODAttendance (st : ODState) (userId : String)
    (onDutyRequestId latitude longitude : String)
    (address qrData selfieUrl : Option String) (today : String) :
    Except AppError ODAttendance × ODState :=
  if onDutyRequestId = "" ∨ latitude = "" ∨ longitude = "" then
    (.error ⟨"On-duty request ID, latitude, and longitude are required", 400⟩, st)
  else
    match st.requests.find?
        (fun r => r.id == onDutyRequestId && r.student_id == userId &&
          r.status == "approved") with
    | none => (.error ⟨"On-duty request not found or not approved", 404⟩, st)
    | some r =>
      if strLt today r.start_date || strLt r.end_date today then
        (.error ⟨"On-duty request is not valid for today", 400⟩, st)
      else if st.attendance.any
          (fun a => a.request_id == onDutyRequestId && a.student_id == userId &&
            a.check_in_date == today) then
        (.error ⟨"Attendance already marked for this on-duty request today", 400⟩, st)
      else
        let row : ODAttendance :=
          { request_id := onDutyRequestId, student_id := userId,
            check_in_date := today, latitude := latitude, longitude := longitude,
            address := orNull address, selfie_photo_url := selfieUrl,
            qr_data := orNull qrData }
        (.ok row, { st with attendance := st.attendance ++ [row] })

/-- Embeds `DELETE /request/:id` from `onduty.routes.ts`: the lookup
matches the id and the authenticated user id against `student_id`; only
`pending` requests may be deleted; the delete removes by id. -/
def deleteODRequest (st : ODState) (reqId userId : String) :
    Except AppError Unit × ODState :=
  match st.requests.find? (fun r => r.id == reqId && r.student_id == userId) with
  | none => (.error ⟨"On-duty request not found", 404⟩, st)
  | some r =>
    if !(r.status == "pending") then
      (.error ⟨"Cannot delete an on-duty request that has been processed", 400⟩, st)
    else
      (.ok (), { st with requests := st.requests.filter fun x => !(x.id == reqId) })

/-! Concrete fixtures used by counterexamples and witnesses. -/

/-- An active event on 2025-03-15 at 10:00:00 (UTC wall clock). -/
def evFix : EventRow :=
  { id := "e1", status := "Active", event_date := some "2025-03-15",
    event_time := some "10:00:00" }

/-- The start instant of `evFix` in milliseconds (2025-03-15 is day 20162
since the epoch). -/
def tFix : Int := 20162 * 86400000 + 10 * 3600000

/-- An active future-dated event with capacity one. -/
def evCap : EventRow :=
  { id := "e5", status := "Active", event_date := some "2099-12-31",
    event_time := none, max_participants := some 1 }

/-- One registered participant filling `evCap`'s capacity. -/
def partsCap : List Participant := [⟨"e5", "s1", "registered"⟩]

/-- An approved multi-day on-duty request. -/
def rOD : ODRequest :=
  { id := "r1", student_id := "u1", college_name := "ABC College",
    start_date := "2025-10-24", start_time := "09:00",
    end_date := "2025-10-26", end_time := "17:00", reason := "fest",
    status := "approved" }

/-- State holding only the approved request `rOD`. -/
def stOD : ODState := { users := [], students := [], requests := [rOD], attendance := [] }

/-- An attendance row already recorded for `rOD` on 2025-10-25. -/
def aOD : ODAttendance :=
  { request_id := "r1", student_id := "u1", check_in_date := "2025-10-25",
    latitude := "13.0827", longitude := "80.2707" }

/-- State holding `rOD` plus the day's attendance row. -/
def stODdup : ODState :=
  { users := [], students := [], requests := [rOD], attendance := [aOD] }

/-- A user whose student profile is missing. -/
def uNoProfile : UserRow := ⟨"u9", "kid@example.com"⟩

/-- State with the profile-less user and no student rows. -/
def stNoProfile : ODState :=
  { users := [uNoProfile], students := [], requests := [], attendance := [] }

/-- A reference instant 2026-04-30T00:00:00Z for the on-duty date
validations. -/
def nowOD : Int := daysFromCivil 2026 4 30 * 86400000

/-- The student row the create handler auto-creates for `uNoProfile`. -/
def sAuto : StudentRow :=
  { id := "s9", user_id := "u9", status := "approved", name := "kid",
    email := "kid@example.com", phone := "", college := "Default",
    department := "CS", year := "1st", registration_number := "123456" }

/-- The request row the create handler then inserts for `sAuto`. -/
def rAuto : ODRequest :=
  { id := "r9", student_id := "s9", college_name := "ABC College",
    start_date := "2026-05-01", start_time := "09:00",
    end_date := "2026-05-01", end_time := "17:00", reason := "fest",
    document_url := none, status := "pending" }

/-- The state after the auto-creating create call on `stNoProfile`. -/
def stAfterAuto : ODState :=
  { users := [uNoProfile], students := [sAuto], requests := [rAuto], attendance := [] }

/-- An active future-dated event with no capacity configured. -/
def evW : EventRow :=
  { id := "e4", status := "Active", event_date := some "2099-12-31",
    event_time := none }

/-- A student profile that is still pending approval. -/
def sPend : StudentRow := { id := "s2", user_id := "u2", status := "pending" }

/-- State holding only the pending profile. -/
def stPend : ODState :=
  { users := [], students := [sPend], requests := [], attendance := [] }

/-- An approved student profile whose id differs from its user id. -/
def sProf : StudentRow := { id := "sid7", user_id := "u7", status := "approved" }

/-- State holding only the approved profile. -/
def stProf : ODState :=
  { users := [], students := [sProf], requests := [], attendance := [] }

/-- The request row created for `sProf`; its `student_id` is the
profile id `sid7`, not the user id `u7`. -/
def rowProf : ODRequest :=
  odRequestRow "r7" "sid7" "ABC College" "2026-05-01" "09:00" "2026-05-01"
    "17:00" "fest" none

/-- The state after `sProf` creates `rowProf`. -/
def stProfAfter : ODState := { stProf with requests := stProf.requests ++ [rowProf] }

/-- An approved request whose `student_id` is the profile id `sid7`. -/
def rMis : ODRequest :=
  { id := "rm", student_id := "sid7", college_name := "ABC College",
    start_date := "2026-05-01", start_time := "09:00",
    end_date := "2026-05-02", end_time := "17:00", reason := "fest",
    status := "approved" }

/-- State holding only `rMis`. -/
def stMis : ODState :=
  { users := [], students := [sProf], requests := [rMis], attendance := [] }

/-- One registered participant of `evFix`, with no attendance logs. -/
def dbSweep : EventDB :=
  { participants := [⟨"e1", "s1", "registered"⟩], logs := [] }

/-! Sanity checks of the date arithmetic. -/

/-- The epoch is day zero. -/
theorem daysFromCivil_epoch : daysFromCivil 1970 1 1 = 0 := by decide

/-- A known day number, and the round trip through `civilFromDays`. -/
theorem daysFromCivil_sample :
    daysFromCivil 2025 3 15 = 20162 ∧ civilFromDays 20162 = (2025, 3, 15) := by decide

/-! Claim theorems. -/

/-- C1 (code divergence, evaluated on the embedded check-in handler): for
the event starting at instant `tFix` with the constant 15-minute grace
period, a check-in one minute early is rejected as not started (as the
claim says), but check-ins at 14 and at 16 minutes after the start are
both rejected as "Event is already completed" rather than succeeding as
attended/present resp. late: the handler's completion test fires for any
instant after the event's start, so the grace/late classification can
never reach a successful response. -/
theorem checkin_after_start_rejected_as_completed :
    checkinDecision evFix (tFix - 60000) 0 =
        .error ⟨"Event has not started yet", 400⟩ ∧
      checkinDecision evFix (tFix + 14 * 60000) 0 =
        .error ⟨"Event is already completed", 400⟩ ∧
      checkinDecision evFix (tFix + 16 * 60000) 0 =
        .error ⟨"Event is already completed", 400⟩ ∧
      checkinDecision evFix tFix 0 = .ok ("attended", "present") := by decide

/-- C5 (counterexample to the stated claim): with `max_participants = 1`
and one registered participant, a second distinct student's registration
is rejected with the `AppError` status 400, not 409. -/
theorem capacity_rejection_is_400 :
    register partsCap evCap "s2" 0 =
      (.err ⟨"Event has reached maximum capacity", 400⟩, partsCap) := by decide

/-- C7 (counterexample to the stated claim): the admin update moves the
request `rOD` from `approved` to `rejected`, so `approved` is not a
terminal state. -/
theorem approved_request_not_terminal :
    adminUpdateODRequest stOD "r1" "rejected" (some "bad docs") "a1" =
      (.ok (),
        { stOD with requests := [{ rOD with
            status := "rejected", approved_by := some "a1",
            rejection_reason := some "bad docs" }] }) := by decide

/-- C8 (counterexample to the stated claim): a second same-day attendance
mark for the approved request is rejected with the `AppError` status 400,
not 409. -/
theorem duplicate_same_day_rejection_is_400 :
    markODAttendance stODdup "u1" "r1" "13.0827" "80.2707" none none none "2025-10-25" =
      (.error ⟨"Attendance already marked for this on-duty request today", 400⟩,
        stODdup) := by decide

/-- C9 (counterexample to the stated claim): a user with no student
profile is not rejected with a 403; the handler auto-creates an approved
profile and inserts the request. -/
theorem create_without_profile_succeeds :
    createODRequest stNoProfile "u9" "ABC College" "2026-05-01" "09:00"
        "2026-05-01" "17:00" "fest" none nowOD 0 "s9" "123456" "r9" =
      (.ok rAuto, stAfterAuto) := by decide

/-- C3: the registration gate `isEventCompleted` is monotone in the
current time: for a fixed event and instants `t1 ≤ t2`, completion at
`t1` implies completion at `t2` — an event never reopens. -/
theorem isEventCompleted_monotone :
    ∀ (ev : EventRow) (t1 t2 : Int), t1 ≤ t2 →
      isEventCompleted ev t1 = true → isEventCompleted ev t2 = true := by
  intro ev t1 t2 h12 h1
  unfold isEventCompleted at h1 ⊢
  by_cases hs : statusNorm ev.status = "completed" ∨ statusNorm ev.status = "archived"
  · simp [hs]
  · rw [if_neg hs] at h1 ⊢
    cases hnd : normalizeEventDate ev.event_date with
    | none => rw [hnd] at h1; simp at h1
    | some cd =>
      rw [hnd] at h1
      try dsimp only at h1
      try dsimp only
      by_cases hv : calDateValid cd = false
      · rw [if_pos hv] at h1; simp at h1
      · rw [if_neg hv] at h1 ⊢
        have hD : (0 : Int) < msPerDay := by norm_num [msPerDay]
        have hd : Int.ediv t1 msPerDay ≤ Int.ediv t2 msPerDay := Int.ediv_le_ediv hD h12
        simp only [mul_lt_mul_right hD] at h1 ⊢
        by_cases hc1 : Int.ediv t1 msPerDay < civilDays cd
        · rw [if_pos hc1] at h1; simp at h1
        · rw [if_neg hc1] at h1
          by_cases hc2 : civilDays cd < Int.ediv t1 msPerDay
          · have hlt2 : civilDays cd < Int.ediv t2 msPerDay := lt_of_lt_of_le hc2 hd
            rw [if_neg (by omega), if_pos hlt2]
          · rw [if_neg hc2] at h1
            rcases eq_or_lt_of_le hd with hdd | hdd
            · rw [← hdd, if_neg hc1, if_neg hc2]
              cases hnt : normalizeEventTime ev.event_time with
              | none => rw [hnt] at h1; simp at h1
              | some t =>
                rw [hnt] at h1
                try dsimp only at h1
                try dsimp only
                cases htm : timeOfDayMs t with
                | none => rw [htm] at h1; simp at h1
                | some tms =>
                  rw [htm] at h1
                  try dsimp only at h1
                  try dsimp only
                  simp only [decide_eq_true_eq] at h1 ⊢
                  exact le_trans h1 h12
            · have hlt2 : civilDays cd < Int.ediv t2 msPerDay := by omega
              rw [if_neg (by omega), if_pos hlt2]

/-- C2: the registration gate `isEventCompleted` computes exactly the
claimed characterization `registrationGateClaim`: status
Completed/Archived, else false on an unparseable date, false for a date
strictly after today (UTC), true for a date strictly before today, and
for today false without a time component, otherwise true iff the combined
date+time instant is at or before `now`. -/
theorem registration_gate_exact :
    ∀ (ev : EventRow) (now : Int),
      isEventCompleted ev now = true ↔ registrationGateClaim ev now := by
  intro ev now
  unfold isEventCompleted registrationGateClaim
  by_cases hs : statusNorm ev.status = "completed" ∨ statusNorm ev.status = "archived"
  · rw [if_pos hs]
    constructor
    · intro _
      rcases hs with h | h
      · exact .inl h
      · exact .inr (.inl h)
    · intro _; rfl
  · rw [if_neg hs]
    have hs1 : ¬ statusNorm ev.status = "completed" := fun h => hs (.inl h)
    have hs2 : ¬ statusNorm ev.status = "archived" := fun h => hs (.inr h)
    cases hnd : normalizeEventDate ev.event_date with
    | none => simp [hs1, hs2]
    | some cd =>
      try dsimp only
      by_cases hv : calDateValid cd = false
      · rw [if_pos hv]
        simp [hs1, hs2, hv]
      · rw [if_neg hv]
        have hvt : calDateValid cd = true := by
          revert hv; cases calDateValid cd <;> simp
        have hD : (0 : Int) < msPerDay := by norm_num [msPerDay]
        simp only [mul_lt_mul_right hD]
        by_cases hc1 : Int.ediv now msPerDay < civilDays cd
        · rw [if_pos hc1]
          constructor
          · intro h; cases h
          · rintro (h | h | ⟨cd', hcd', hval, hdisj⟩)
            · exact absurd h hs1
            · exact absurd h hs2
            · injection hcd' with e
              subst e
              rcases hdisj with h' | ⟨h', _⟩ <;> omega
        · rw [if_neg hc1]
          by_cases hc2 : civilDays cd < Int.ediv now msPerDay
          · rw [if_pos hc2]
            constructor
            · intro _; exact .inr (.inr ⟨cd, rfl, hvt, .inl hc2⟩)
            · intro _; rfl
          · rw [if_neg hc2]
            have heq : civilDays cd = Int.ediv now msPerDay := by omega
            cases hnt : normalizeEventTime ev.event_time with
            | none =>
              constructor
              · intro h; simp at h
              · rintro (h | h | ⟨cd', hcd', hval, hdisj⟩)
                · exact absurd h hs1
                · exact absurd h hs2
                · injection hcd' with e
                  subst e
                  rcases hdisj with h' | ⟨_, t, tms, hnt', _⟩
                  · omega
                  · cases hnt'
            | some t =>
              try dsimp only
              cases htm : timeOfDayMs t with
              | none =>
                constructor
                · intro h; simp at h
                · rintro (h | h | ⟨cd', hcd', hval, hdisj⟩)
                  · exact absurd h hs1
                  · exact absurd h hs2
                  · injection hcd' with e
                    subst e
                    rcases hdisj with h' | ⟨_, t', tms, hnt', htm', _⟩
                    · omega
                    · injection hnt' with e2
                      subst e2
                      rw [htm] at htm'
                      exact absurd htm' (by simp)
              | some tms =>
                try dsimp only
                constructor
                · intro h
                  refine .inr (.inr ⟨cd, rfl, hvt, .inr ⟨heq, t, tms, rfl, htm, ?_⟩⟩)
                  exact decide_eq_true_eq.mp h
                · rintro (h | h | ⟨cd', hcd', hval, hdisj⟩)
                  · exact absurd h hs1
                  · exact absurd h hs2
                  · injection hcd' with e
                    subst e
                    rcases hdisj with h' | ⟨_, t', tms', hnt', htm', hle⟩
                    · omega
                    · injection hnt' with e2
                      subst e2
                      rw [htm] at htm'
                      injection htm' with e3
                      subst e3
                      exact decide_eq_true_eq.mpr hle

theorem find?_of_filter_nil {p : Participant → Bool} {l : List Participant}
    (h : l.filter p = []) : l.find? p = none :=
  List.find?_eq_none.mpr (List.filter_eq_nil_iff.mp h)

/-- C4: registration is idempotent for a student already `registered`:
for a non-cancelled event that is not completed at either instant, a
first registration inserts one `registered` row and succeeds, and a
second registration by the same student returns success with the
"already registered" message, mutates nothing, and leaves exactly one
participant row for the (event, student) pair. -/
theorem register_idempotent_for_registered :
    ∀ (parts : List Participant) (ev : EventRow) (sid : String) (t1 t2 : Int),
      statusNorm ev.status ≠ "cancelled" →
      isEventCompleted ev t1 = false →
      isEventCompleted ev t2 = false →
      parts.filter (pairMatch ev.id sid) = [] →
      capacityOpen parts ev →
      register parts ev sid t1 =
          (.ok "Registered successfully" (some "registered"),
            parts ++ [⟨ev.id, sid, "registered"⟩]) ∧
        register (parts ++ [⟨ev.id, sid, "registered"⟩]) ev sid t2 =
          (.ok "You are already registered for this event" (some "registered"),
            parts ++ [⟨ev.id, sid, "registered"⟩]) ∧
        ((parts ++ [(⟨ev.id, sid, "registered"⟩ : Participant)]).filter (pairMatch ev.id sid)).length = 1 := by
  intro parts ev sid t1 t2 hnc hic1 hic2 hfil hcap
  have hfind : parts.find? (pairMatch ev.id sid) = none := find?_of_filter_nil hfil
  have hcapb : capBlocked parts ev = false := by
    unfold capBlocked
    cases hmp : ev.max_participants with
    | none => rfl
    | some n =>
      by_cases hn : n = 0
      · subst hn; simp
      · have hlt := hcap n hmp hn
        simp [hn, Nat.not_le.mpr hlt]
  refine ⟨?_, ?_, ?_⟩
  · unfold register
    rw [if_neg hnc, hic1]
    simp only [Bool.false_eq_true, if_false, hfind, hcapb]
  · unfold register
    rw [if_neg hnc, hic2]
    have hfind2 : (parts ++ [(⟨ev.id, sid, "registered"⟩ : Participant)]).find?
        (pairMatch ev.id sid) = some ⟨ev.id, sid, "registered"⟩ := by
      rw [List.find?_append, hfind]
      simp [pairMatch]
    simp only [Bool.false_eq_true, if_false, hfind2]
    rw [if_neg (by decide), if_neg (by decide)]
  · rw [List.filter_append, hfil]
    simp [pairMatch]

/-- C5 (amended): for an event with `max_participants = N ≥ 1`, when
exactly `N` participants hold status in {registered, attended, late} a
further distinct student's registration is rejected with
`AppError "Event has reached maximum capacity"` surfaced as HTTP 400
(the source throws 400, not the 409 the claim states) and no row is
inserted, while with `N - 1` such participants the registration
succeeds. -/
theorem capacity_gate_amended :
    ∀ (parts : List Participant) (ev : EventRow) (sid : String) (now : Int) (N : Nat),
      ev.max_participants = some N → 1 ≤ N →
      statusNorm ev.status ≠ "cancelled" →
      isEventCompleted ev now = false →
      parts.filter (pairMatch ev.id sid) = [] →
      (countQual parts ev.id = N →
          register parts ev sid now =
            (.err ⟨"Event has reached maximum capacity", 400⟩, parts)) ∧
        (countQual parts ev.id = N - 1 →
          register parts ev sid now =
            (.ok "Registered successfully" (some "registered"),
              parts ++ [⟨ev.id, sid, "registered"⟩])) := by
  intro parts ev sid now N hmp hN hnc hic hfil
  have hfind : parts.find? (pairMatch ev.id sid) = none := find?_of_filter_nil hfil
  constructor
  · intro hcount
    have hcapb : capBlocked parts ev = true := by
      unfold capBlocked
      rw [hmp, hcount]
      simp
      omega
    unfold register
    rw [if_neg hnc, hic]
    simp only [Bool.false_eq_true, if_false, hfind, hcapb, if_true]
  · intro hcount
    have hcapb : capBlocked parts ev = false := by
      unfold capBlocked
      rw [hmp, hcount]
      simp only [Bool.and_eq_false_iff, decide_eq_false_iff_not]
      right
      omega
    unfold register
    rw [if_neg hnc, hic]
    simp only [Bool.false_eq_true, if_false, hfind, hcapb]

theorem logPairAny_eq_false_iff (L : List LogRow) (s e : String) :
    logPairAny L s e = false ↔ logPairCount L s e = 0 := by
  unfold logPairAny logPairCount
  rw [List.any_eq_false, List.length_eq_zero, List.filter_eq_nil_iff]

theorem logPairCount_append_one (L : List LogRow) (r : LogRow) (s e : String) :
    logPairCount (L ++ [r]) s e =
      logPairCount L s e + (if r.student_id == s && r.event_id == e then 1 else 0) := by
  unfold logPairCount
  rw [List.filter_append, List.length_append]
  congr 1
  by_cases h : r.student_id == s && r.event_id == e
  · simp [h]
  · simp [h]

theorem map_absentify_of_no_pending (eid : String) (l : List Participant)
    (h : l.filter (pendingPred eid) = []) : l.map (absentify eid) = l := by
  induction l with
  | nil => rfl
  | cons p t ih =>
    rw [List.filter_cons] at h
    by_cases hp : pendingPred eid p
    · simp [hp] at h
    · rw [if_neg (by simp [hp])] at h
      rw [List.map_cons, ih h]
      unfold absentify
      rw [if_neg (by simp [hp])]

theorem filter_pending_map_absentify (eid : String) (l : List Participant) :
    (l.map (absentify eid)).filter (pendingPred eid) = [] := by
  induction l with
  | nil => rfl
  | cons p t ih =>
    rw [List.map_cons, List.filter_cons]
    by_cases hp : pendingPred eid p
    · rw [absentify, if_pos hp]
      rw [if_neg (by simp [pendingPred])]
      exact ih
    · rw [absentify, if_neg hp]
      rw [if_neg (by simp [hp])]
      exact ih

theorem foldl_insert_count (eid : String) (venue : Option String) (sid : String) :
    ∀ (ps : List Participant) (L : List LogRow),
      logPairCount (ps.foldl (insertAbsentLog eid venue) L) sid eid =
        if logPairCount L sid eid ≠ 0 then logPairCount L sid eid
        else if ps.any (fun p => p.student_id == sid) then 1 else 0 := by
  intro ps
  induction ps with
  | nil =>
    intro L
    by_cases h : logPairCount L sid eid = 0 <;> simp [h]
  | cons p t ih =>
    intro L
    rw [List.foldl_cons, ih]
    unfold insertAbsentLog
    by_cases hpa : logPairAny L p.student_id eid
    · rw [if_pos hpa]
      by_cases hps : p.student_id == sid
      · have hsid : p.student_id = sid := beq_iff_eq.mp hps
        have hc : logPairCount L sid eid ≠ 0 := by
          rw [← hsid]
          intro h0
          rw [← logPairAny_eq_false_iff] at h0
          rw [hpa] at h0
          cases h0
        simp [hc, List.any_cons, hps]
      · simp [List.any_cons, hps]
    · rw [if_neg hpa]
      have hc0 : logPairCount L p.student_id eid = 0 :=
        (logPairAny_eq_false_iff L p.student_id eid).mp (by revert hpa; cases logPairAny L p.student_id eid <;> simp)
      by_cases hps : p.student_id == sid
      · have hsid : p.student_id = sid := beq_iff_eq.mp hps
        have hcL : logPairCount L sid eid = 0 := by rw [← hsid]; exact hc0
        have hcL1 : logPairCount (L ++ [⟨p.student_id, eid, "absent", venue⟩]) sid eid = 1 := by
          rw [logPairCount_append_one, hcL]
          simp [hps]
        simp [hcL1, hcL, List.any_cons, hps]
      · have hcL : logPairCount (L ++ [⟨p.student_id, eid, "absent", venue⟩]) sid eid =
            logPairCount L sid eid := by
          rw [logPairCount_append_one]
          simp [hps]
        rw [hcL]
        simp [List.any_cons, hps]

theorem foldl_insert_mem (eid : String) (venue : Option String) :
    ∀ (ps : List Participant) (L : List LogRow) (l : LogRow),
      l ∈ ps.foldl (insertAbsentLog eid venue) L →
      l ∈ L ∨ (l.event_id = eid ∧ l.status = "absent" ∧
        ∃ p ∈ ps, p.student_id = l.student_id) := by
  intro ps
  induction ps with
  | nil => intro L l hl; exact .inl hl
  | cons p t ih =>
    intro L l hl
    rw [List.foldl_cons] at hl
    rcases ih _ l hl with hin | ⟨he, hs, q, hq, hqs⟩
    · unfold insertAbsentLog at hin
      by_cases hpa : logPairAny L p.student_id eid
      · rw [if_pos hpa] at hin
        exact .inl hin
      · rw [if_neg hpa] at hin
        rcases List.mem_append.mp hin with h | h
        · exact .inl h
        · rcases List.mem_singleton.mp h with rfl
          exact .inr ⟨rfl, rfl, p, List.mem_cons_self p t, rfl⟩
    · exact .inr ⟨he, hs, q, List.mem_cons_of_mem p hq, hqs⟩

theorem pendingStudent_eq_false_of_no_pending {db : EventDB} {eid : String}
    (h : db.participants.filter (pendingPred eid) = []) (sid : String) :
    pendingStudent db eid sid = false := by
  unfold pendingStudent
  rw [List.any_eq_false]
  intro p hp
  have := List.filter_eq_nil_iff.mp h p hp
  simp [this]

/-- C6: updating an event to Completed/Archived runs the absence sweep;
the sweep sets every still-`registered` participant of the event to
`absent` and leaves other rows unchanged (the `absentify` map), creates
an `absent` attendance-log row for a pending student only if the
(student, event) pair has no log row yet (the per-pair log count is
preserved when non-zero and becomes one exactly for pending students),
every new log row is an `absent` row of a pending student, and running
the sweep a second time changes nothing. -/
theorem absence_sweep_correct :
    ∀ (db : EventDB) (ev : EventRow) (newStatus : String),
      (statusNorm newStatus = "completed" ∨ statusNorm newStatus = "archived") →
      (updateEventStatus db ev newStatus).2 =
          markPendingParticipantsAsAbsent db { ev with status := newStatus } ∧
        (∀ ev0 : EventRow,
          (markPendingParticipantsAsAbsent db ev0).participants =
            db.participants.map (absentify ev0.id)) ∧
        (∀ (ev0 : EventRow) (sid : String),
          logPairCount (markPendingParticipantsAsAbsent db ev0).logs sid ev0.id =
            if logPairCount db.logs sid ev0.id ≠ 0 then logPairCount db.logs sid ev0.id
            else if pendingStudent db ev0.id sid then 1 else 0) ∧
        (∀ (ev0 : EventRow) (l : LogRow),
          l ∈ (markPendingParticipantsAsAbsent db ev0).logs →
          l ∈ db.logs ∨ (l.event_id = ev0.id ∧ l.status = "absent" ∧
            pendingStudent db ev0.id l.student_id = true)) ∧
        (∀ ev0 : EventRow,
          markPendingParticipantsAsAbsent (markPendingParticipantsAsAbsent db ev0) ev0 =
            markPendingParticipantsAsAbsent db ev0) := by
  intro db ev newStatus hst
  refine ⟨?_, ?_, ?_, ?_, ?_⟩
  · unfold updateEventStatus
    rw [if_pos hst]
  · intro ev0
    unfold markPendingParticipantsAsAbsent
    by_cases he : (db.participants.filter (pendingPred ev0.id)).isEmpty
    · rw [if_pos he]
      exact (map_absentify_of_no_pending ev0.id db.participants
        (List.isEmpty_iff.mp he)).symm
    · rw [if_neg he]
  · intro ev0 sid
    unfold markPendingParticipantsAsAbsent
    by_cases he : (db.participants.filter (pendingPred ev0.id)).isEmpty
    · rw [if_pos he]
      rw [pendingStudent_eq_false_of_no_pending (List.isEmpty_iff.mp he) sid]
      by_cases hc : logPairCount db.logs sid ev0.id = 0
      · simp [hc]
      · simp [hc]
    · rw [if_neg he]
      show logPairCount
          ((db.participants.filter (pendingPred ev0.id)).foldl
            (insertAbsentLog ev0.id ev0.venue) db.logs) sid ev0.id = _
      rw [foldl_insert_count]
      congr 1
      rw [List.any_filter]
      rfl
  · intro ev0 l hl
    unfold markPendingParticipantsAsAbsent at hl
    by_cases he : (db.participants.filter (pendingPred ev0.id)).isEmpty
    · rw [if_pos he] at hl
      exact .inl hl
    · rw [if_neg he] at hl
      rcases foldl_insert_mem ev0.id ev0.venue _ db.logs l hl with hin | ⟨h1, h2, p, hp, hps⟩
      · exact .inl hin
      · refine .inr ⟨h1, h2, ?_⟩
        unfold pendingStudent
        rw [List.any_eq_true]
        rcases List.mem_filter.mp hp with ⟨hpmem, hppred⟩
        exact ⟨p, hpmem, by simp [hppred, hps]⟩
  · intro ev0
    by_cases he : (db.participants.filter (pendingPred ev0.id)).isEmpty
    · have hdb : markPendingParticipantsAsAbsent db ev0 = db := by
        unfold markPendingParticipantsAsAbsent
        rw [if_pos he]
      rw [hdb, hdb]
    · have hparts : (markPendingParticipantsAsAbsent db ev0).participants =
          db.participants.map (absentify ev0.id) := by
        unfold markPendingParticipantsAsAbsent
        rw [if_neg he]
      have hfil : (markPendingParticipantsAsAbsent db ev0).participants.filter
          (pendingPred ev0.id) = [] := by
        rw [hparts]
        exact filter_pending_map_absentify ev0.id db.participants
      generalize hS : markPendingParticipantsAsAbsent db ev0 = S at hfil ⊢
      unfold markPendingParticipantsAsAbsent
      dsimp only
      rw [hfil]
      simp

/-- C7 (amended): `approved` and `rejected` are not terminal — the
admin approve/reject update overwrites the status of any existing
request with the requested value regardless of its current status (the
handler never inspects the current status before the update). -/
theorem admin_update_overwrites_status :
    ∀ (st : ODState) (reqId newStatus adminId : String) (reason : Option String)
      (r : ODRequest),
      (newStatus = "approved" ∨ newStatus = "rejected") →
      (newStatus = "rejected" → truthy reason = true) →
      st.requests.find? (fun x => x.id == reqId) = some r →
      adminUpdateODRequest st reqId newStatus reason adminId =
        (.ok (),
          { st with
            requests := st.requests.map fun x =>
              if x.id == reqId then
                { x with
                  status := newStatus
                  approved_by := some adminId
                  rejection_reason := orNull reason }
              else x }) := by
  intro st reqId newStatus adminId reason r hs hr hfind
  unfold adminUpdateODRequest
  rcases hs with h | h <;> subst h
  · simp [hfind]
  · simp [hfind, hr rfl]


/-- C8 (amended): for an approved multi-day on-duty request, marking
attendance on two distinct in-window days succeeds and appends two rows,
and a repeated mark on an already-marked day is rejected with
`AppError "Attendance already marked for this on-duty request today"`
surfaced as HTTP 400 (the source throws 400, not the 409 the claim
states) and inserts nothing. -/
theorem od_same_day_unique_amended :
    ∀ (st : ODState) (r : ODRequest) (uid reqId lat lng d1 d2 : String),
      reqId ≠ "" → lat ≠ "" → lng ≠ "" →
      st.requests.find?
          (fun x => x.id == reqId && x.student_id == uid && x.status == "approved") =
        some r →
      strLt d1 r.start_date = false → strLt r.end_date d1 = false →
      strLt d2 r.start_date = false → strLt r.end_date d2 = false →
      d1 ≠ d2 →
      st.attendance.filter (fun a => a.request_id == reqId && a.student_id == uid) = [] →
      markODAttendance st uid reqId lat lng none none none d1 =
          (.ok (odRow reqId uid d1 lat lng),
            { st with attendance := st.attendance ++ [odRow reqId uid d1 lat lng] }) ∧
        markODAttendance { st with attendance := st.attendance ++ [odRow reqId uid d1 lat lng] }
            uid reqId lat lng none none none d2 =
          (.ok (odRow reqId uid d2 lat lng),
            { st with attendance :=
              (st.attendance ++ [odRow reqId uid d1 lat lng]) ++ [odRow reqId uid d2 lat lng] }) ∧
        markODAttendance
            { st with attendance :=
              (st.attendance ++ [odRow reqId uid d1 lat lng]) ++ [odRow reqId uid d2 lat lng] }
            uid reqId lat lng none none none d1 =
          (.error ⟨"Attendance already marked for this on-duty request today", 400⟩,
            { st with attendance :=
              (st.attendance ++ [odRow reqId uid d1 lat lng]) ++ [odRow reqId uid d2 lat lng] }) := by
  intro st r uid reqId lat lng d1 d2 hreq hlat hlng hfind hw1 hw2 hw3 hw4 hd12 hfil
  have hany : ∀ d, st.attendance.any
      (fun a => a.request_id == reqId && a.student_id == uid && a.check_in_date == d) = false := by
    intro d
    rw [List.any_eq_false]
    intro a ha
    have hnp := List.filter_eq_nil_iff.mp hfil a ha
    cases hxy : (a.request_id == reqId && a.student_id == uid) with
    | false => simp [hxy]
    | true => exact absurd hxy (by simpa using hnp)
  refine ⟨?_, ?_, ?_⟩
  · unfold markODAttendance
    rw [if_neg (by simp [hreq, hlat, hlng]), hfind]
    dsimp only
    rw [hw1, hw2]
    simp only [Bool.or_self, Bool.false_eq_true, if_false]
    rw [hany d1]
    simp only [Bool.false_eq_true, if_false]
    rfl
  · unfold markODAttendance
    rw [if_neg (by simp [hreq, hlat, hlng])]
    dsimp only
    rw [hfind]
    dsimp only
    rw [hw3, hw4]
    simp only [Bool.or_self, Bool.false_eq_true, if_false]
    have : (st.attendance ++ [odRow reqId uid d1 lat lng]).any
        (fun a => a.request_id == reqId && a.student_id == uid && a.check_in_date == d2) = false := by
      rw [List.any_append, hany d2]
      simp [odRow, hd12]
    rw [this]
    simp only [Bool.false_eq_true, if_false]
    rfl
  · unfold markODAttendance
    rw [if_neg (by simp [hreq, hlat, hlng])]
    dsimp only
    rw [hfind]
    dsimp only
    rw [hw1, hw2]
    simp only [Bool.or_self, Bool.false_eq_true, if_false]
    have : ((st.attendance ++ [odRow reqId uid d1 lat lng]) ++ [odRow reqId uid d2 lat lng]).any
        (fun a => a.request_id == reqId && a.student_id == uid && a.check_in_date == d1) = true := by
      rw [List.any_append, List.any_append, hany d1]
      simp [odRow]
    rw [this]
    simp only [if_true]


/-- C9 (amended): when the acting user's student profile exists with a
status other than `approved`, the on-duty create is rejected with a 403
and no request row is inserted; when the profile is absent, however, the
handler auto-creates an `approved` profile for an existing user and —
the date validations passing — inserts the request (rather than
rejecting with 403 as the claim states). -/
theorem od_create_approval_gate_amended :
    (∀ (st : ODState) (uid cn sd stt ed et rsn : String) (du : Option String)
        (now tz : Int) (nsid nreg nrid : String) (s : StudentRow),
      cn ≠ "" → sd ≠ "" → stt ≠ "" → ed ≠ "" → et ≠ "" → rsn ≠ "" →
      st.students.find? (fun x => x.user_id == uid) = some s →
      s.status ≠ "approved" →
      createODRequest st uid cn sd stt ed et rsn du now tz nsid nreg nrid =
        (.error ⟨"Your student profile is " ++ s.status ++
          ". Only approved students can submit on-duty requests.", 403⟩, st)) ∧
    (∀ (st : ODState) (uid : String) (u : UserRow) (cn sd stt ed et rsn : String)
        (du : Option String) (now tz : Int) (nsid nreg nrid : String),
      cn ≠ "" → sd ≠ "" → stt ≠ "" → ed ≠ "" → et ≠ "" → rsn ≠ "" →
      st.students.find? (fun x => x.user_id == uid) = none →
      st.users.find? (fun x => x.id == uid) = some u →
      jsLtOI (parseLocalDT sd stt tz) now = false →
      jsLeOO (parseLocalDT ed et tz) (parseLocalDT sd stt tz) = false →
      jsGtOI (parseLocalDT sd stt tz) (oneYearFromNowMs now tz) = false →
      createODRequest st uid cn sd stt ed et rsn du now tz nsid nreg nrid =
        (.ok (odRequestRow nrid nsid cn sd stt ed et rsn du),
          { st with
            students := st.students ++ [autoStudent uid u.email nsid nreg]
            requests := st.requests ++ [odRequestRow nrid nsid cn sd stt ed et rsn du] })) := by
  constructor
  · intro st uid cn sd stt ed et rsn du now tz nsid nreg nrid s
    intro h1 h2 h3 h4 h5 h6 hfind hstat
    unfold createODRequest createODRequestWithStudent
    rw [if_neg (by simp [h1, h2, h3, h4, h5, h6]), hfind]
    dsimp only
    rw [if_pos (by simp [hstat])]
  · intro st uid u cn sd stt ed et rsn du now tz nsid nreg nrid
    intro h1 h2 h3 h4 h5 h6 hfindS hfindU hlt hle hgt
    unfold createODRequest
    rw [if_neg (by simp [h1, h2, h3, h4, h5, h6]), hfindS, hfindU]
    dsimp only
    have hrefetch : (st.students ++ [autoStudent uid u.email nsid nreg]).find?
        (fun x => x.user_id == uid) = some (autoStudent uid u.email nsid nreg) := by
      rw [List.find?_append, hfindS]
      simp [autoStudent]
    rw [hrefetch]
    dsimp only
    unfold createODRequestWithStudent
    rw [if_neg (by simp [autoStudent])]
    dsimp only
    rw [hlt, hle, hgt]
    simp only [Bool.false_eq_true, if_false]
    rfl

/-- C10: the create handler stores the students-table profile id as the
request's `student_id` (whenever the profile lookup resolves a row `s`,
a successful create appends a request carrying `s.id`), while
mark-attendance and delete match `student_id` against the authenticated
user id; hence for any state whose rows for `reqId` carry a profile id
different from the user id, both operations return the 404 not-found
error regardless of approval status and window. -/
theorem od_identity_mismatch :
    (∀ (st : ODState) (uid cn sd stt ed et rsn : String) (du : Option String)
        (now tz : Int) (nsid nreg nrid : String) (s : StudentRow)
        (req : ODRequest) (st2 : ODState),
      st.students.find? (fun x => x.user_id == uid) = some s →
      createODRequest st uid cn sd stt ed et rsn du now tz nsid nreg nrid =
        (.ok req, st2) →
      req.student_id = s.id ∧ st2.requests = st.requests ++ [req]) ∧
    (∀ (st : ODState) (uid reqId sidv lat lng : String)
        (addr qr selfie : Option String) (today : String),
      (∀ r ∈ st.requests, r.id = reqId → r.student_id = sidv) →
      sidv ≠ uid →
      reqId ≠ "" → lat ≠ "" → lng ≠ "" →
      markODAttendance st uid reqId lat lng addr qr selfie today =
          (.error ⟨"On-duty request not found or not approved", 404⟩, st) ∧
        deleteODRequest st reqId uid =
          (.error ⟨"On-duty request not found", 404⟩, st)) := by
  constructor
  · intro st uid cn sd stt ed et rsn du now tz nsid nreg nrid s req st2 hfind hok
    unfold createODRequest at hok
    split at hok
    · exact absurd hok (by simp)
    · rw [hfind] at hok
      dsimp only at hok
      unfold createODRequestWithStudent at hok
      split at hok
      · exact absurd hok (by simp)
      · dsimp only at hok
        split at hok
        · exact absurd hok (by simp)
        · split at hok
          · exact absurd hok (by simp)
          · split at hok
            · exact absurd hok (by simp)
            · injection hok with ha hb
              injection ha with ha
              subst ha
              subst hb
              exact ⟨rfl, rfl⟩
  · intro st uid reqId sidv lat lng addr qr selfie today hall hne hreq hlat hlng
    have hfindA : st.requests.find?
        (fun x => x.id == reqId && x.student_id == uid && x.status == "approved") = none := by
      rw [List.find?_eq_none]
      intro x hx
      by_cases hid : x.id = reqId
      · have hx2 := hall x hx hid
        simp [hx2, hne]
      · simp [hid]
    have hfindD : st.requests.find?
        (fun x => x.id == reqId && x.student_id == uid) = none := by
      rw [List.find?_eq_none]
      intro x hx
      by_cases hid : x.id = reqId
      · have hx2 := hall x hx hid
        simp [hx2, hne]
      · simp [hid]
    constructor
    · unfold markODAttendance
      rw [if_neg (by simp [hreq, hlat, hlng]), hfindA]
    · unfold deleteODRequest
      rw [hfindD]

/-- Witness for C3 at a concrete event and pair of instants. -/
theorem isEventCompleted_monotone_witness :
    isEventCompleted evFix (tFix + 60000) = true :=
  isEventCompleted_monotone evFix tFix (tFix + 60000) (by decide) (by decide)

/-- Witness for C4 at a concrete event and student. -/
theorem register_idempotent_witness :
    register [] evW "s1" 0 =
        (.ok "Registered successfully" (some "registered"),
          [] ++ [(⟨evW.id, "s1", "registered"⟩ : Participant)]) ∧
      register ([] ++ [(⟨evW.id, "s1", "registered"⟩ : Participant)]) evW "s1" 1 =
        (.ok "You are already registered for this event" (some "registered"),
          [] ++ [(⟨evW.id, "s1", "registered"⟩ : Participant)]) ∧
      (([] ++ [(⟨evW.id, "s1", "registered"⟩ : Participant)]).filter
        (pairMatch evW.id "s1")).length = 1 :=
  register_idempotent_for_registered [] evW "s1" 0 1 (by decide) (by decide)
    (by decide) rfl (by intro n h hn; simp [evW] at h)

/-- Witness for C5 at a concrete capacity-one event. -/
theorem capacity_gate_witness :
    register partsCap evCap "s2" 0 =
        (.err ⟨"Event has reached maximum capacity", 400⟩, partsCap) ∧
      register [] evCap "s2" 0 =
        (.ok "Registered successfully" (some "registered"),
          [] ++ [(⟨evCap.id, "s2", "registered"⟩ : Participant)]) :=
  ⟨(capacity_gate_amended partsCap evCap "s2" 0 1 rfl (by decide) (by decide)
      (by decide) (by decide)).1 (by decide),
    (capacity_gate_amended [] evCap "s2" 0 1 rfl (by decide) (by decide)
      (by decide) rfl).2 (by decide)⟩

/-- Witness for C6 at a concrete event database. -/
theorem absence_sweep_witness :
    (updateEventStatus dbSweep evFix "Completed").2 =
        markPendingParticipantsAsAbsent dbSweep { evFix with status := "Completed" } ∧
      markPendingParticipantsAsAbsent (markPendingParticipantsAsAbsent dbSweep evFix) evFix =
        markPendingParticipantsAsAbsent dbSweep evFix :=
  ⟨(absence_sweep_correct dbSweep evFix "Completed" (.inl (by decide))).1,
    (absence_sweep_correct dbSweep evFix "Completed" (.inl (by decide))).2.2.2.2 evFix⟩

/-- Witness for C7 at a concrete approved request. -/
theorem admin_update_witness :
    adminUpdateODRequest stOD "r1" "approved" none "a1" =
      (.ok (),
        { stOD with
          requests := stOD.requests.map fun x =>
            if x.id == "r1" then
              { x with
                status := "approved"
                approved_by := some "a1"
                rejection_reason := orNull none }
            else x }) :=
  admin_update_overwrites_status stOD "r1" "approved" "a1" none rOD
    (.inl rfl) (by decide) (by decide)

/-- Witness for C8 at a concrete approved request and two days. -/
theorem od_same_day_unique_witness :
    markODAttendance
        { stOD with attendance :=
          (stOD.attendance ++ [odRow "r1" "u1" "2025-10-24" "13.0" "80.2"]) ++
            [odRow "r1" "u1" "2025-10-25" "13.0" "80.2"] }
        "u1" "r1" "13.0" "80.2" none none none "2025-10-24" =
      (.error ⟨"Attendance already marked for this on-duty request today", 400⟩,
        { stOD with attendance :=
          (stOD.attendance ++ [odRow "r1" "u1" "2025-10-24" "13.0" "80.2"]) ++
            [odRow "r1" "u1" "2025-10-25" "13.0" "80.2"] }) :=
  (od_same_day_unique_amended stOD rOD "u1" "r1" "13.0" "80.2" "2025-10-24"
    "2025-10-25" (by decide) (by decide) (by decide) (by decide) (by decide)
    (by decide) (by decide) (by decide) (by decide) rfl).2.2

/-- Witness for C9: a pending profile is rejected with the 403, and the
profile-less user's request is auto-created. -/
theorem od_create_gate_witness :
    createODRequest stPend "u2" "ABC College" "2026-05-01" "09:00" "2026-05-01"
        "17:00" "fest" none nowOD 0 "x" "y" "z" =
      (.error ⟨"Your student profile is " ++ sPend.status ++
        ". Only approved students can submit on-duty requests.", 403⟩, stPend) ∧
    createODRequest stNoProfile "u9" "ABC College" "2026-05-01" "09:00" "2026-05-01"
        "17:00" "fest" none nowOD 0 "s9" "123456" "r9" =
      (.ok (odRequestRow "r9" "s9" "ABC College" "2026-05-01" "09:00" "2026-05-01"
          "17:00" "fest" none),
        { stNoProfile with
          students := stNoProfile.students ++ [autoStudent "u9" uNoProfile.email "s9" "123456"]
          requests := stNoProfile.requests ++
            [odRequestRow "r9" "s9" "ABC College" "2026-05-01" "09:00" "2026-05-01"
              "17:00" "fest" none] }) :=
  ⟨od_create_approval_gate_amended.1 stPend "u2" "ABC College" "2026-05-01" "09:00"
      "2026-05-01" "17:00" "fest" none nowOD 0 "x" "y" "z" sPend (by decide)
      (by decide) (by decide) (by decide) (by decide) (by decide) (by decide) (by decide),
    od_create_approval_gate_amended.2 stNoProfile "u9" uNoProfile "ABC College"
      "2026-05-01" "09:00" "2026-05-01" "17:00" "fest" none nowOD 0 "s9" "123456" "r9"
      (by decide) (by decide) (by decide) (by decide) (by decide) (by decide) rfl
      (by decide) (by decide) (by decide) (by decide)⟩

/-- Witness for C10: the created request stores the profile id `sid7`,
and mark-attendance and delete by the user id `u7` both return 404 on a
state whose request carries the profile id. -/
theorem od_identity_mismatch_witness :
    (rowProf.student_id = sProf.id ∧
        stProfAfter.requests = stProf.requests ++ [rowProf]) ∧
      (markODAttendance stMis "u7" "rm" "13.0" "80.2" none none none "2026-05-01" =
          (.error ⟨"On-duty request not found or not approved", 404⟩, stMis) ∧
        deleteODRequest stMis "rm" "u7" =
          (.error ⟨"On-duty request not found", 404⟩, stMis)) :=
  ⟨od_identity_mismatch.1 stProf "u7" "ABC College" "2026-05-01" "09:00" "2026-05-01"
      "17:00" "fest" none nowOD 0 "zz" "000" "r7" sProf rowProf stProfAfter
      (by decide) (by decide),
    od_identity_mismatch.2 stMis "u7" "rm" "sid7" "13.0" "80.2" none none none
      "2026-05-01" (by decide) (by decide) (by decide) (by decide) (by decide)⟩
